import Mathlib

/- Verification of the astrophotography session planner (photo.py).

The Python source is shallowly embedded as follows:
- Python floats are modeled as real numbers (`ℝ`); where a computation is
  exact rational arithmetic (Julian day, timelapse parameters) we use `ℚ`
  so that concrete values can be computed by the kernel.
- Python ints are modeled as `ℤ` (or `ℕ` for the loop bounds of
  `generate_sequence`, which the claims restrict to positive integers).
- Python `a % b` on reals (sign of the divisor, here always positive) is
  `fmod`; Python `//` on ints is floor division `Int.fdiv`.
- `datetime` instants consumed by the session pipeline are modeled by their
  (real) Julian Day value; adding `timedelta(minutes=i)` adds `i * oneMinute`
  days.  The calendar-field-to-Julian-day conversion `julian_day` is modeled
  separately on a `Timestamp` record of calendar fields.
- Code that can raise (`calculate_interval`, which divides by
  `target_frames`) returns `Except String`, the error carrying the Python
  exception message.
-/

/- Python's `x % y` for real `x` and positive real `y`: the representative of
x modulo y in [0, y). -/
noncomputable def fmod (x y : ℝ) : ℝ := x - y * ⌊x / y⌋

/- math.radians -/
noncomputable def radians (x : ℝ) : ℝ := x * (Real.pi / 180)

/- math.degrees -/
noncomputable def degrees (x : ℝ) : ℝ := x * (180 / Real.pi)

/- Python's `range(0, stop, step)` for positive `step`: the multiples of
`step` that are < `stop`, in increasing order; there are
`(stop + step - 1) / step` of them (the ceiling of stop/step). -/
def pyRange (stop step : ℕ) : List ℕ := List.range' 0 ((stop + step - 1) / step) step

/- Banker's rounding to an integer (Python's built-in `round`): round half to
even. -/
def round_half_even (x : ℚ) : ℤ :=
  if Int.fract x = 1 / 2 then (if 2 ∣ ⌊x⌋ then ⌊x⌋ else ⌊x⌋ + 1) else round x

/- Python's `round(x, 1)`. -/
def round1 (x : ℚ) : ℚ := (round_half_even (10 * x) : ℚ) / 10

-- ===================== ENUMS =====================

inductive SkyCondition where
  | CLEAR
  | ATMOSPHERIC
  | LOW_HORIZON
  | DEEP_SKY
deriving DecidableEq

inductive CelestialObject where
  | MOON
  | PLANET
  | SATELLITE
  | DEEP_SKY_OBJECT
deriving DecidableEq

-- ===================== DATA CLASSES =====================

structure Position where
  azimuth : ℝ
  elevation : ℝ
deriving Inhabited

/- Property `is_visible` of Position. -/
noncomputable def Position.is_visible (p : Position) : Prop := p.elevation > 0

structure CameraConfig where
  iso : ℤ
  f_stop : ℝ
  shutter : ℝ
  focal_length : ℤ
  focus : String := "infinity"

structure CelestialData where
  position : Position
  phase : ℝ
  distance_km : ℝ
  angular_size_arcmin : ℝ
  magnitude : ℝ

/- Property `condition` of CelestialData. -/
noncomputable def CelestialData.condition (c : CelestialData) : SkyCondition :=
  if c.position.elevation < 15 then SkyCondition.LOW_HORIZON
  else if c.position.elevation < 30 then SkyCondition.ATMOSPHERIC
  else SkyCondition.CLEAR

-- ===================== CALCULATORS =====================

/- Calendar fields of a `datetime` (year, month, day, hour, minute, second). -/
structure Timestamp where
  year : ℤ
  month : ℤ
  day : ℤ
  hour : ℤ
  minute : ℤ
  second : ℤ

/- The integer part `jdn` computed inside `AstronomyCalculator.julian_day`
(Python `//` is floor division, `Int.fdiv`). -/
def AstronomyCalculator.jdn (ts : Timestamp) : ℤ :=
  let a := (14 - ts.month).fdiv 12
  let y := ts.year + 4800 - a
  let m := ts.month + 12 * a - 3
  ts.day + (153 * m + 2).fdiv 5 + 365 * y + y.fdiv 4 - y.fdiv 100 + y.fdiv 400 - 32045

/- The fractional-day part `fraction` computed inside
`AstronomyCalculator.julian_day`. -/
def AstronomyCalculator.fraction (ts : Timestamp) : ℚ :=
  ((ts.hour : ℚ) - 12) / 24 + (ts.minute : ℚ) / 1440 + (ts.second : ℚ) / 86400

/- AstronomyCalculator.julian_day: convert datetime to Julian Day Number. -/
def AstronomyCalculator.julian_day (ts : Timestamp) : ℚ :=
  (AstronomyCalculator.jdn ts : ℚ) + AstronomyCalculator.fraction ts

/- Local `lon_ecl` of `AstronomyCalculator.lunar_position`. -/
noncomputable def AstronomyCalculator.lon_ecl (jd : ℝ) : ℝ :=
  let d := jd - 2451545.0
  let L := radians (fmod (218.316 + 13.176396 * d) 360)
  let M := radians (fmod (134.963 + 13.064993 * d) 360)
  let M_sun := radians (fmod (357.528 + 0.985600 * d) 360)
  L + radians (6.289 * Real.sin M - 1.274 * Real.sin (M - 2 * M_sun) +
               0.658 * Real.sin (2 * M_sun))

/- Local `lat_ecl` of `AstronomyCalculator.lunar_position`. -/
noncomputable def AstronomyCalculator.lat_ecl (jd : ℝ) : ℝ :=
  let d := jd - 2451545.0
  radians (5.128 * Real.sin (radians (93.272 + 13.229350 * d)))

/- AstronomyCalculator.lunar_position: (azimuth, elevation).  The observer
coordinates are accepted but unused, as in the source. -/
noncomputable def AstronomyCalculator.lunar_position (jd lat lon : ℝ) : ℝ × ℝ :=
  (fmod (degrees (AstronomyCalculator.lon_ecl jd) + 180) 360,
   max (-90) (min 90 (degrees (AstronomyCalculator.lat_ecl jd) + 30)))

/- Local `L` of `AstronomyCalculator.lunar_phase`: mean lunar longitude. -/
noncomputable def AstronomyCalculator.mean_lunar_longitude (jd : ℝ) : ℝ :=
  radians (fmod (218.316 + 13.176396 * (jd - 2451545.0)) 360)

/- Local `S` of `AstronomyCalculator.lunar_phase`: mean solar longitude. -/
noncomputable def AstronomyCalculator.mean_solar_longitude (jd : ℝ) : ℝ :=
  radians (fmod (280.466 + 0.985647 * (jd - 2451545.0)) 360)

/- AstronomyCalculator.lunar_phase: 0 = new moon, 1 = full moon. -/
noncomputable def AstronomyCalculator.lunar_phase (jd : ℝ) : ℝ :=
  (1 + Real.cos (AstronomyCalculator.mean_lunar_longitude jd -
                 AstronomyCalculator.mean_solar_longitude jd)) / 2

/- CameraPresets.PRESETS: fixed per-condition baseline settings. -/
noncomputable def CameraPresets.PRESETS (c : SkyCondition) : CameraConfig :=
  match c with
  | SkyCondition.CLEAR => { iso := 200, f_stop := 8.0, shutter := 1 / 125, focal_length := 300 }
  | SkyCondition.ATMOSPHERIC => { iso := 400, f_stop := 5.6, shutter := 1 / 200, focal_length := 250 }
  | SkyCondition.LOW_HORIZON => { iso := 800, f_stop := 4.0, shutter := 1 / 160, focal_length := 400 }
  | SkyCondition.DEEP_SKY => { iso := 1600, f_stop := 2.8, shutter := 30, focal_length := 50 }

noncomputable def CameraPresets.get_config (condition : SkyCondition) : CameraConfig :=
  CameraPresets.PRESETS condition

/- CameraPresets.adjust_for_phase.  Python's `int(config.iso * 2)` is just
`config.iso * 2` since iso is an int; the constructed dataclass leaves
`focus` at its default "infinity" in both branches. -/
noncomputable def CameraPresets.adjust_for_phase (config : CameraConfig) (phase : ℝ) : CameraConfig :=
  let brightness_factor := 0.3 + 0.7 * phase
  if brightness_factor < 0.5 then
    { iso := min 3200 (config.iso * 2), f_stop := max 2.8 (config.f_stop - 1),
      shutter := config.shutter, focal_length := config.focal_length }
  else
    { iso := config.iso, f_stop := config.f_stop,
      shutter := config.shutter, focal_length := config.focal_length }

noncomputable def ExposureCalculator.atmospheric_compensation (elevation : ℝ) : ℝ :=
  if elevation < 10 then 2.0
  else if elevation < 20 then 1.0
  else if elevation < 30 then 0.5
  else 0.0

noncomputable def ExposureCalculator.phase_compensation (phase : ℝ) : ℝ :=
  -2.5 * phase + 1.5

noncomputable def ExposureCalculator.total_compensation (celestial_data : CelestialData) : ℝ :=
  ExposureCalculator.atmospheric_compensation celestial_data.position.elevation +
    ExposureCalculator.phase_compensation celestial_data.phase

-- ===================== SESSION DATA =====================

/- A ShootingPlan; `timestamp` is the instant, on the Julian-Day timescale. -/
structure ShootingPlan where
  timestamp : ℝ
  celestial_data : CelestialData
  camera_config : CameraConfig
  exposure_comp : ℝ

/- The result record of TimelapseCalculator.calculate_interval. -/
structure TimelapseSettings where
  interval_seconds : ℚ
  total_frames : ℤ
  storage_gb : ℚ
  battery_hours : ℚ
  playback_fps : ℤ
deriving DecidableEq

/- The message of the ZeroDivisionError Python raises on float division by
zero. -/
def zeroDivisionMsg : String := "float division by zero"

/- TimelapseCalculator.calculate_interval.  When `target_frames = 0` the
Python division `total_seconds / target_frames` raises an unhandled
ZeroDivisionError; this is modeled as the `Except.error` branch. -/
def TimelapseCalculator.calculate_interval (duration_hours : ℚ) (target_fps : ℤ := 24)
    (final_duration_seconds : ℤ := 30) : Except String TimelapseSettings :=
  let total_seconds := duration_hours * 3600
  let target_frames := target_fps * final_duration_seconds
  if target_frames = 0 then Except.error zeroDivisionMsg
  else
    let interval_seconds := total_seconds / (target_frames : ℚ)
    let storage_gb := ((target_frames : ℚ) * 25) / 1024
    let battery_hours := duration_hours * (3 / 4)
    Except.ok
      { interval_seconds := round1 interval_seconds, total_frames := target_frames,
        storage_gb := round1 storage_gb, battery_hours := round1 battery_hours,
        playback_fps := target_fps }

-- ===================== SESSION =====================

/- One minute of `timedelta`, expressed in days on the Julian-Day
timescale. -/
noncomputable def oneMinute : ℝ := 1 / 1440

/- AstroSession.get_lunar_data.  The `timestamp` argument is the instant's
Julian Day value (`julian_day` of its calendar fields), so the source's
`jd = self.calc.julian_day(timestamp)` step is the identity here. -/
noncomputable def AstroSession.get_lunar_data (lat lon : ℝ) (timestamp : ℝ) : CelestialData :=
  let jd := timestamp
  let azimuth := (AstronomyCalculator.lunar_position jd lat lon).1
  let elevation := (AstronomyCalculator.lunar_position jd lat lon).2
  let phase := AstronomyCalculator.lunar_phase jd
  { position := { azimuth := azimuth, elevation := elevation }, phase := phase,
    distance_km := 384400, angular_size_arcmin := 31.1,
    magnitude := -12.7 * phase - 2.5 }

noncomputable def AstroSession.create_shooting_plan (lat lon : ℝ) (timestamp : ℝ) : ShootingPlan :=
  let lunar_data := AstroSession.get_lunar_data lat lon timestamp
  let base_config := CameraPresets.get_config lunar_data.condition
  let adjusted_config := CameraPresets.adjust_for_phase base_config lunar_data.phase
  let exposure_comp := ExposureCalculator.total_compensation lunar_data
  { timestamp := timestamp, celestial_data := lunar_data,
    camera_config := adjusted_config, exposure_comp := exposure_comp }

/- AstroSession.generate_sequence.  `start_time` is the injected reference
instant (the source's `datetime.now()`); the loop
`for i in range(0, duration_minutes, interval_minutes)` appends one plan at
`start_time + timedelta(minutes=i)` per iteration. -/
noncomputable def AstroSession.generate_sequence (lat lon : ℝ) (start_time : ℝ)
    (duration_minutes : ℕ) (interval_minutes : ℕ := 5) : List ShootingPlan :=
  (pyRange duration_minutes interval_minutes).map
    (fun i : ℕ => AstroSession.create_shooting_plan lat lon (start_time + (i : ℝ) * oneMinute))

-- ===================== REFERENCE DEFINITIONS (from the spec) =====================

/- The standard Gregorian-calendar Julian Day Number, as published: the
Fliegel-Van Flandern (1968) formula, whose integer divisions truncate toward
zero (`Int.tdiv`), as in the original FORTRAN.  This is the spec's "standard
Gregorian Julian Day Number", stated independently of
`AstronomyCalculator.jdn` for comparison. -/
def gregorianJDN (y m d : ℤ) : ℤ :=
  (1461 * (y + 4800 + (m - 14).tdiv 12)).tdiv 4
    + (367 * (m - 2 - 12 * ((m - 14).tdiv 12))).tdiv 12
    - (3 * ((y + 4900 + (m - 14).tdiv 12).tdiv 100)).tdiv 4
    + d - 32075

/- A CelestialData value with the given elevation and phase (the other fields
are irrelevant to `condition` and `total_compensation`). -/
noncomputable def mkCelestial (elevation phase : ℝ) : CelestialData :=
  { position := { azimuth := 0, elevation := elevation }, phase := phase,
    distance_km := 0, angular_size_arcmin := 0, magnitude := 0 }

theorem fmod_eq_mul_fract (x : ℝ) {y : ℝ} (hy : 0 < y) :
    fmod x y = y * Int.fract (x / y) := by
  rw [fmod, Int.fract]
  field_simp

theorem fmod_nonneg (x : ℝ) {y : ℝ} (hy : 0 < y) : 0 ≤ fmod x y := by
  rw [fmod_eq_mul_fract x hy]
  exact mul_nonneg hy.le (Int.fract_nonneg _)

theorem fmod_lt (x : ℝ) {y : ℝ} (hy : 0 < y) : fmod x y < y := by
  rw [fmod_eq_mul_fract x hy]
  calc y * Int.fract (x / y) < y * 1 := mul_lt_mul_of_pos_left (Int.fract_lt_one _) hy
    _ = y := mul_one y

theorem degrees_radians (x : ℝ) : degrees (radians x) = x := by
  rw [degrees, radians]
  have hpi := Real.pi_ne_zero
  field_simp

theorem length_pyRange (stop step : ℕ) : (pyRange stop step).length = (stop + step - 1) / step := by
  simp [pyRange]

theorem pairwise_pyRange {step : ℕ} (stop : ℕ) (h : 0 < step) :
    (pyRange stop step).Pairwise (· < ·) :=
  List.pairwise_lt_range' 0 _ step h

theorem mem_pyRange_lt {stop step m : ℕ} (hstop : 0 < stop) (hstep : 0 < step)
    (hm : m ∈ pyRange stop step) : m < stop := by
  rw [pyRange, List.mem_range'] at hm
  obtain ⟨i, hi, rfl⟩ := hm
  have hub : (stop + step - 1) / step * step ≤ stop + step - 1 := Nat.div_mul_le_self _ _
  have hik : i ≤ (stop + step - 1) / step - 1 := by omega
  have h1 : step * i ≤ step * ((stop + step - 1) / step - 1) := Nat.mul_le_mul_left _ hik
  have h2 : step * ((stop + step - 1) / step - 1) + step = step * ((stop + step - 1) / step) := by
    have e : (stop + step - 1) / step - 1 + 1 = (stop + step - 1) / step := by
      have : 1 ≤ (stop + step - 1) / step := by
        rw [Nat.one_le_div_iff hstep]
        omega
      omega
    calc step * ((stop + step - 1) / step - 1) + step
        = step * ((stop + step - 1) / step - 1 + 1) := by ring
      _ = step * ((stop + step - 1) / step) := by rw [e]
  have h3 : step * ((stop + step - 1) / step) = (stop + step - 1) / step * step := by ring
  omega

/- Natural-number ceiling division agrees with `(d + i - 1) / i`. -/
theorem ceil_div_eq (d i : ℕ) (hd : 0 < d) (hi : 0 < i) :
    ⌈(d : ℚ) / (i : ℚ)⌉₊ = (d + i - 1) / i := by
  have hiq : (0 : ℚ) < (i : ℚ) := by exact_mod_cast hi
  have hub : (d + i - 1) / i * i ≤ d + i - 1 := Nat.div_mul_le_self _ _
  have hlb : d ≤ (d + i - 1) / i * i := by
    rcases Nat.lt_or_ge ((d + i - 1) / i * i) d with h | h
    · exfalso
      have hc : ((d + i - 1) / i + 1) * i ≤ d + i - 1 := by
        have e : ((d + i - 1) / i + 1) * i = (d + i - 1) / i * i + i := by ring
        omega
      have := (Nat.le_div_iff_mul_le hi).mpr hc
      omega
    · exact h
  have hn1 : 1 ≤ (d + i - 1) / i := by
    rw [Nat.one_le_div_iff hi]
    omega
  apply le_antisymm
  · rw [Nat.ceil_le, div_le_iff₀ hiq]
    exact_mod_cast hlb
  · have hm1 : ((d + i - 1) / i - 1) * i + i = (d + i - 1) / i * i := by
      have e : (d + i - 1) / i - 1 + 1 = (d + i - 1) / i := by omega
      calc ((d + i - 1) / i - 1) * i + i = ((d + i - 1) / i - 1 + 1) * i := by ring
        _ = (d + i - 1) / i * i := by rw [e]
    have hlt : ((d + i - 1) / i - 1) * i < d := by omega
    have hltq : (((d + i - 1) / i - 1 : ℕ) : ℚ) < (d : ℚ) / (i : ℚ) := by
      rw [lt_div_iff₀ hiq]
      exact_mod_cast hlt
    have := Nat.lt_ceil.mpr hltq
    omega

/- Floor-division identity used to align the year-dependent parts of the two
Julian Day Number formulas. -/
theorem jdn_yearpart (Y : ℤ) (hY : 0 ≤ Y) :
    (1461 * Y) / 4 - 3 * ((Y + 100) / 100) / 4 = 365 * Y + Y / 4 - Y / 100 + Y / 400 := by
  have e1 : (1461 * Y) / 4 = 365 * Y + Y / 4 := by omega
  have e3 : (Y + 100) / 100 = Y / 100 + 1 := by omega
  have e5 : (Y / 100) / 4 = Y / 400 := by omega
  have e4 : 3 * (Y / 100 + 1) / 4 = Y / 100 - (Y / 100) / 4 := by omega
  omega

/- The source's Julian Day integer part agrees with the published
Fliegel-Van Flandern formula on every valid month and nonnegative year. -/
theorem jdn_eq_gregorianJDN (ts : Timestamp) (h1 : 1 ≤ ts.month) (h2 : ts.month ≤ 12)
    (hy : 0 ≤ ts.year) : AstronomyCalculator.jdn ts = gregorianJDN ts.year ts.month ts.day := by
  obtain ⟨y, m, d, hh, mm, ss⟩ := ts
  simp only [AstronomyCalculator.jdn, gregorianJDN] at *
  have hm14 : (m - 14).tdiv 12 = -((14 - m) / 12) := by
    rw [show m - 14 = -(14 - m) by ring, Int.neg_tdiv, Int.tdiv_eq_ediv (by omega) (by norm_num)]
  simp only [hm14,
    show ((14:ℤ) - m).fdiv 12 = (14 - m) / 12 from Int.fdiv_eq_ediv _ (by norm_num)]
  rw [show ∀ a : ℤ, a.fdiv 5 = a / 5 from fun a => Int.fdiv_eq_ediv a (by norm_num),
      show ∀ a : ℤ, a.fdiv 4 = a / 4 from fun a => Int.fdiv_eq_ediv a (by norm_num),
      show ∀ a : ℤ, a.fdiv 100 = a / 100 from fun a => Int.fdiv_eq_ediv a (by norm_num),
      show ∀ a : ℤ, a.fdiv 400 = a / 400 from fun a => Int.fdiv_eq_ediv a (by norm_num),
      Int.tdiv_eq_ediv (by omega) (by norm_num : (0:ℤ) ≤ 4),
      Int.tdiv_eq_ediv (by omega) (by norm_num : (0:ℤ) ≤ 12),
      Int.tdiv_eq_ediv (by omega) (by norm_num : (0:ℤ) ≤ 100)]
  rw [Int.tdiv_eq_ediv
        (Int.mul_nonneg (by norm_num) (Int.ediv_nonneg (by omega) (by norm_num)))
        (by norm_num : (0:ℤ) ≤ 4)]
  have hy1 := jdn_yearpart (y + 4799) (by omega)
  have hy2 := jdn_yearpart (y + 4800) (by omega)
  interval_cases m <;> (norm_num; ring_nf; ring_nf at hy1 hy2; omega)

-- ===================== CLAIM C8 =====================

/-- C8: for every Gregorian calendar timestamp, `julian_day` equals the
standard Gregorian Julian Day Number (the floor-division month/year
adjustment algorithm, shown equal to the published Fliegel-Van Flandern
formula for every valid month and nonnegative year) plus the fractional day
`(hour - 12)/24 + minute/1440 + second/86400` measured from the preceding
noon; at hour 12, minute 0, second 0 the fractional term is 0 and the result
is the integer JDN.  The concrete anchors are published Julian Day values. -/
theorem julian_day_spec :
    (∀ ts : Timestamp,
      AstronomyCalculator.julian_day ts =
        (AstronomyCalculator.jdn ts : ℚ) +
          (((ts.hour : ℚ) - 12) / 24 + (ts.minute : ℚ) / 1440 + (ts.second : ℚ) / 86400)) ∧
    (∀ ts : Timestamp, ts.hour = 12 → ts.minute = 0 → ts.second = 0 →
      AstronomyCalculator.julian_day ts = (AstronomyCalculator.jdn ts : ℚ)) ∧
    (∀ ts : Timestamp, 1 ≤ ts.month → ts.month ≤ 12 → 0 ≤ ts.year →
      AstronomyCalculator.jdn ts = gregorianJDN ts.year ts.month ts.day) ∧
    AstronomyCalculator.julian_day ⟨2000, 1, 1, 12, 0, 0⟩ = 2451545 ∧
    AstronomyCalculator.julian_day ⟨1987, 1, 27, 0, 0, 0⟩ = 2446822.5 ∧
    AstronomyCalculator.julian_day ⟨1987, 6, 19, 12, 0, 0⟩ = 2446966 ∧
    AstronomyCalculator.julian_day ⟨1988, 6, 19, 12, 0, 0⟩ = 2447332 ∧
    AstronomyCalculator.julian_day ⟨2000, 2, 29, 12, 0, 0⟩ = 2451604 ∧
    AstronomyCalculator.julian_day ⟨1957, 10, 4, 19, 26, 24⟩ = 2436116.31 := by
  refine ⟨fun ts => rfl, ?_, jdn_eq_gregorianJDN, ?_, ?_, ?_, ?_, ?_, ?_⟩
  · intro ts hh hm hs
    rw [AstronomyCalculator.julian_day, AstronomyCalculator.fraction, hh, hm, hs]
    norm_num
  · rw [AstronomyCalculator.julian_day,
        show AstronomyCalculator.jdn ⟨2000, 1, 1, 12, 0, 0⟩ = 2451545 from by decide]
    norm_num [AstronomyCalculator.fraction]
  · rw [AstronomyCalculator.julian_day,
        show AstronomyCalculator.jdn ⟨1987, 1, 27, 0, 0, 0⟩ = 2446823 from by decide]
    norm_num [AstronomyCalculator.fraction]
  · rw [AstronomyCalculator.julian_day,
        show AstronomyCalculator.jdn ⟨1987, 6, 19, 12, 0, 0⟩ = 2446966 from by decide]
    norm_num [AstronomyCalculator.fraction]
  · rw [AstronomyCalculator.julian_day,
        show AstronomyCalculator.jdn ⟨1988, 6, 19, 12, 0, 0⟩ = 2447332 from by decide]
    norm_num [AstronomyCalculator.fraction]
  · rw [AstronomyCalculator.julian_day,
        show AstronomyCalculator.jdn ⟨2000, 2, 29, 12, 0, 0⟩ = 2451604 from by decide]
    norm_num [AstronomyCalculator.fraction]
  · rw [AstronomyCalculator.julian_day,
        show AstronomyCalculator.jdn ⟨1957, 10, 4, 19, 26, 24⟩ = 2436116 from by decide]
    norm_num [AstronomyCalculator.fraction]

/-- Witness for C8: the hypotheses of `julian_day_spec` discharged at the
concrete timestamp 2000-01-01 12:00:00. -/
theorem julian_day_spec_witness :
    ((1:ℤ) ≤ 1 ∧ (1:ℤ) ≤ 12 ∧ (0:ℤ) ≤ 2000) ∧
    AstronomyCalculator.julian_day ⟨2000, 1, 1, 12, 0, 0⟩ =
      (AstronomyCalculator.jdn ⟨2000, 1, 1, 12, 0, 0⟩ : ℚ) ∧
    AstronomyCalculator.jdn ⟨2000, 1, 1, 12, 0, 0⟩ = gregorianJDN 2000 1 1 :=
  ⟨by norm_num, julian_day_spec.2.1 ⟨2000, 1, 1, 12, 0, 0⟩ rfl rfl rfl,
   julian_day_spec.2.2.1 ⟨2000, 1, 1, 12, 0, 0⟩ (by norm_num) (by norm_num) (by norm_num)⟩

-- ===================== CLAIM C3 =====================

/-- C3: the condition classifier returns LowHorizon exactly when
elevation < 15, Atmospheric exactly when 15 ≤ elevation < 30, Clear exactly
when elevation ≥ 30, and never DeepSky; in particular 14.9 ↦ LowHorizon,
15.0 ↦ Atmospheric, 29.9 ↦ Atmospheric, 30.0 ↦ Clear. -/
theorem condition_spec :
    (∀ c : CelestialData,
      (c.condition = SkyCondition.LOW_HORIZON ↔ c.position.elevation < 15) ∧
      (c.condition = SkyCondition.ATMOSPHERIC ↔
        15 ≤ c.position.elevation ∧ c.position.elevation < 30) ∧
      (c.condition = SkyCondition.CLEAR ↔ 30 ≤ c.position.elevation) ∧
      c.condition ≠ SkyCondition.DEEP_SKY) ∧
    (mkCelestial 14.9 0).condition = SkyCondition.LOW_HORIZON ∧
    (mkCelestial 15 0).condition = SkyCondition.ATMOSPHERIC ∧
    (mkCelestial 29.9 0).condition = SkyCondition.ATMOSPHERIC ∧
    (mkCelestial 30 0).condition = SkyCondition.CLEAR := by
  have key : ∀ c : CelestialData,
      (c.condition = SkyCondition.LOW_HORIZON ↔ c.position.elevation < 15) ∧
      (c.condition = SkyCondition.ATMOSPHERIC ↔
        15 ≤ c.position.elevation ∧ c.position.elevation < 30) ∧
      (c.condition = SkyCondition.CLEAR ↔ 30 ≤ c.position.elevation) ∧
      c.condition ≠ SkyCondition.DEEP_SKY := by
    intro c
    rcases lt_or_ge c.position.elevation 15 with h1 | h1
    · have hc : c.condition = SkyCondition.LOW_HORIZON := by
        rw [CelestialData.condition, if_pos h1]
      rw [hc]
      refine ⟨by simp [h1], ?_, ?_, by simp⟩
      · simp
        intro h
        linarith
      · simp
        linarith
    · rcases lt_or_ge c.position.elevation 30 with h2 | h2
      · have hc : c.condition = SkyCondition.ATMOSPHERIC := by
          rw [CelestialData.condition, if_neg (not_lt.mpr h1), if_pos h2]
        rw [hc]
        refine ⟨by simp; linarith, by simp [h1, h2], ?_, by simp⟩
        simp
        linarith
      · have hc : c.condition = SkyCondition.CLEAR := by
          rw [CelestialData.condition, if_neg (not_lt.mpr h1), if_neg (not_lt.mpr h2)]
        rw [hc]
        refine ⟨by simp; linarith, ?_, by simp [h2], by simp⟩
        simp
        intro h
        linarith
  refine ⟨key, ?_, ?_, ?_, ?_⟩
  · exact (key (mkCelestial 14.9 0)).1.mpr (by norm_num [mkCelestial])
  · exact (key (mkCelestial 15 0)).2.1.mpr (by norm_num [mkCelestial])
  · exact (key (mkCelestial 29.9 0)).2.1.mpr (by norm_num [mkCelestial])
  · exact (key (mkCelestial 30 0)).2.2.1.mpr (by norm_num [mkCelestial])

-- ===================== CLAIM C4 =====================

/-- C4: atmospheric compensation is the step function 2.0 / 1.0 / 0.5 / 0.0
at elevations below 10, 20, 30 and above; phase compensation is the linear
function -2.5·phase + 1.5; total compensation is their unclamped sum; and at
elevation 5, phase 0 the total is exactly 3.5. -/
theorem exposure_compensation_spec :
    (∀ elevation : ℝ, ExposureCalculator.atmospheric_compensation elevation =
      if elevation < 10 then 2.0 else if elevation < 20 then 1.0
      else if elevation < 30 then 0.5 else 0.0) ∧
    (∀ phase : ℝ, ExposureCalculator.phase_compensation phase = -2.5 * phase + 1.5) ∧
    (∀ c : CelestialData, ExposureCalculator.total_compensation c =
      ExposureCalculator.atmospheric_compensation c.position.elevation +
        ExposureCalculator.phase_compensation c.phase) ∧
    ExposureCalculator.total_compensation (mkCelestial 5 0) = 3.5 := by
  refine ⟨fun _ => rfl, fun _ => rfl, fun _ => rfl, ?_⟩
  rw [ExposureCalculator.total_compensation, ExposureCalculator.atmospheric_compensation,
      ExposureCalculator.phase_compensation]
  norm_num [mkCelestial]

-- ===================== CLAIM C10 =====================

/-- C10: every CelestialData produced by get_lunar_data carries the constants
distance_km = 384400 and angular_size_arcmin = 31.1, and its magnitude is
-12.7·phase - 2.5 with phase the returned phase field. -/
theorem get_lunar_data_constants_spec (lat lon timestamp : ℝ) :
    (AstroSession.get_lunar_data lat lon timestamp).distance_km = 384400 ∧
    (AstroSession.get_lunar_data lat lon timestamp).angular_size_arcmin = 31.1 ∧
    (AstroSession.get_lunar_data lat lon timestamp).magnitude =
      -12.7 * (AstroSession.get_lunar_data lat lon timestamp).phase - 2.5 :=
  ⟨rfl, rfl, rfl⟩

-- ===================== CLAIM C7 =====================

/-- C7: lunar_phase(jd) is (1 + cos(L - S))/2 with L the mean lunar longitude
radians((218.316 + 13.176396·d) mod 360) and S the mean solar longitude
radians((280.466 + 0.985647·d) mod 360), d = jd - 2451545.0, and the result
lies in [0, 1]. -/
theorem lunar_phase_spec (jd : ℝ) :
    AstronomyCalculator.lunar_phase jd =
      (1 + Real.cos (radians (fmod (218.316 + 13.176396 * (jd - 2451545.0)) 360) -
                     radians (fmod (280.466 + 0.985647 * (jd - 2451545.0)) 360))) / 2 ∧
    0 ≤ AstronomyCalculator.lunar_phase jd ∧ AstronomyCalculator.lunar_phase jd ≤ 1 := by
  refine ⟨rfl, ?_, ?_⟩
  · rw [AstronomyCalculator.lunar_phase]
    have := Real.neg_one_le_cos (AstronomyCalculator.mean_lunar_longitude jd -
      AstronomyCalculator.mean_solar_longitude jd)
    linarith
  · rw [AstronomyCalculator.lunar_phase]
    have := Real.cos_le_one (AstronomyCalculator.mean_lunar_longitude jd -
      AstronomyCalculator.mean_solar_longitude jd)
    linarith

-- ===================== CLAIM C6 =====================

/-- C6: for every Julian day and observer coordinates, the azimuth returned
by lunar_position lies in [0, 360) and the elevation lies in [-90, 90]. -/
theorem lunar_position_range_spec (jd lat lon : ℝ) :
    0 ≤ (AstronomyCalculator.lunar_position jd lat lon).1 ∧
    (AstronomyCalculator.lunar_position jd lat lon).1 < 360 ∧
    -90 ≤ (AstronomyCalculator.lunar_position jd lat lon).2 ∧
    (AstronomyCalculator.lunar_position jd lat lon).2 ≤ 90 := by
  rw [AstronomyCalculator.lunar_position]
  refine ⟨fmod_nonneg _ (by norm_num), fmod_lt _ (by norm_num), le_max_left _ _, ?_⟩
  exact max_le (by norm_num) (min_le_left _ _)

-- ===================== CLAIM C9 =====================

/- The ecliptic-latitude term is a sine of amplitude 5.128 degrees, so the
un-clamped elevation lies in [30 - 5.128, 30 + 5.128]; the clamp to [-90, 90]
is therefore inactive and the returned elevation equals the un-clamped
value. -/
theorem lunar_elevation_eq (jd lat lon : ℝ) :
    (AstronomyCalculator.lunar_position jd lat lon).2 =
      5.128 * Real.sin (radians (93.272 + 13.229350 * (jd - 2451545.0))) + 30 := by
  rw [AstronomyCalculator.lunar_position]
  have hz : degrees (AstronomyCalculator.lat_ecl jd) + 30 =
      5.128 * Real.sin (radians (93.272 + 13.229350 * (jd - 2451545.0))) + 30 := by
    rw [AstronomyCalculator.lat_ecl, degrees_radians]
  have hs1 := Real.sin_le_one (radians (93.272 + 13.229350 * (jd - 2451545.0)))
  have hs2 := Real.neg_one_le_sin (radians (93.272 + 13.229350 * (jd - 2451545.0)))
  have hle : degrees (AstronomyCalculator.lat_ecl jd) + 30 ≤ 90 := by
    rw [hz]
    nlinarith
  have hge : (-90 : ℝ) ≤ degrees (AstronomyCalculator.lat_ecl jd) + 30 := by
    rw [hz]
    nlinarith
  show max (-90) (min 90 (degrees (AstronomyCalculator.lat_ecl jd) + 30)) = _
  rw [min_eq_right hle, max_eq_right hge, hz]

theorem lunar_elevation_bounds (jd lat lon : ℝ) :
    30 - 5.128 ≤ (AstronomyCalculator.lunar_position jd lat lon).2 ∧
    (AstronomyCalculator.lunar_position jd lat lon).2 ≤ 30 + 5.128 := by
  rw [lunar_elevation_eq jd lat lon]
  have hs1 := Real.sin_le_one (radians (93.272 + 13.229350 * (jd - 2451545.0)))
  have hs2 := Real.neg_one_le_sin (radians (93.272 + 13.229350 * (jd - 2451545.0)))
  constructor <;> nlinarith

/-- C9: the elevation returned by lunar_position always lies in
[30 - 5.128, 30 + 5.128], so every CelestialData produced by get_lunar_data
is visible and its condition is Atmospheric or Clear — never LowHorizon and
never DeepSky. -/
theorem pipeline_visibility_spec (lat lon timestamp : ℝ) :
    (30 - 5.128 ≤ (AstronomyCalculator.lunar_position timestamp lat lon).2 ∧
     (AstronomyCalculator.lunar_position timestamp lat lon).2 ≤ 30 + 5.128) ∧
    (AstroSession.get_lunar_data lat lon timestamp).position.is_visible ∧
    ((AstroSession.get_lunar_data lat lon timestamp).condition = SkyCondition.ATMOSPHERIC ∨
     (AstroSession.get_lunar_data lat lon timestamp).condition = SkyCondition.CLEAR) ∧
    (AstroSession.get_lunar_data lat lon timestamp).condition ≠ SkyCondition.LOW_HORIZON ∧
    (AstroSession.get_lunar_data lat lon timestamp).condition ≠ SkyCondition.DEEP_SKY := by
  have hb := lunar_elevation_bounds timestamp lat lon
  have hel : (AstroSession.get_lunar_data lat lon timestamp).position.elevation =
      (AstronomyCalculator.lunar_position timestamp lat lon).2 := rfl
  refine ⟨hb, ?_, ?_, ?_, ?_⟩
  · show (AstroSession.get_lunar_data lat lon timestamp).position.elevation > 0
    rw [hel]
    linarith [hb.1]
  · rw [CelestialData.condition, hel, if_neg (by push_neg; linarith [hb.1])]
    rcases lt_or_ge (AstronomyCalculator.lunar_position timestamp lat lon).2 30 with h | h
    · left
      rw [if_pos h]
    · right
      rw [if_neg (not_lt.mpr h)]
  · rw [CelestialData.condition, hel, if_neg (by push_neg; linarith [hb.1])]
    split_ifs <;> simp
  · rw [CelestialData.condition, hel]
    split_ifs <;> simp

-- ===================== CLAIM C5 =====================

/-- C5: when target_frames = target_fps * final_duration_seconds is zero
(target_fps = 0 or final_duration_seconds = 0), calculate_interval reaches
the division `total_seconds / target_frames`, which in Python raises an
unhandled ZeroDivisionError — there is no explicit "invalid timelapse
parameters" condition in the code. -/
theorem calculate_interval_div_zero :
    (∀ (duration_hours : ℚ) (final_duration_seconds : ℤ),
      TimelapseCalculator.calculate_interval duration_hours 0 final_duration_seconds =
        Except.error zeroDivisionMsg) ∧
    (∀ (duration_hours : ℚ) (target_fps : ℤ),
      TimelapseCalculator.calculate_interval duration_hours target_fps 0 =
        Except.error zeroDivisionMsg) := by
  constructor <;> intro d x <;> simp [TimelapseCalculator.calculate_interval]

-- ===================== CLAIM C2 =====================

/-- C2 counterexample: on a config whose focus is not the default
"infinity", the bright branch does not return a config equal to its input —
the code rebuilds the dataclass without passing focus, so focus is reset to
"infinity". -/
theorem adjust_for_phase_claim_counterexample :
    ¬ (CameraPresets.adjust_for_phase
        { iso := 200, f_stop := 8, shutter := 1 / 125, focal_length := 300, focus := "manual" } 1 =
       { iso := 200, f_stop := 8, shutter := 1 / 125, focal_length := 300, focus := "manual" }) := by
  intro h
  have hfoc := congrArg CameraConfig.focus h
  simp only [CameraPresets.adjust_for_phase] at hfoc
  rw [if_neg (by norm_num)] at hfoc
  exact absurd hfoc (by decide)

/-- C2 (amended): adjust_for_phase computes brightness = 0.3 + 0.7·phase;
if brightness < 0.5 it returns the config with iso = min(3200, 2·iso),
f_stop = max(2.8, f_stop - 1), shutter and focal_length unchanged (focus at
its default "infinity"); otherwise it returns a config with the same iso,
f_stop, shutter and focal_length and focus reset to the default "infinity" —
equal to the input config whenever that config's focus is "infinity", as it
is for every preset.  For every preset config and every phase, the adjusted
ISO never exceeds 3200 and the adjusted f_stop is never below 2.8. -/
theorem adjust_for_phase_spec :
    (∀ (config : CameraConfig) (phase : ℝ),
      (0.3 + 0.7 * phase < 0.5 →
        CameraPresets.adjust_for_phase config phase =
          { iso := min 3200 (config.iso * 2), f_stop := max 2.8 (config.f_stop - 1),
            shutter := config.shutter, focal_length := config.focal_length }) ∧
      (¬ (0.3 + 0.7 * phase < 0.5) →
        CameraPresets.adjust_for_phase config phase =
          { iso := config.iso, f_stop := config.f_stop,
            shutter := config.shutter, focal_length := config.focal_length }) ∧
      (config.focus = "infinity" → ¬ (0.3 + 0.7 * phase < 0.5) →
        CameraPresets.adjust_for_phase config phase = config)) ∧
    (∀ (c : SkyCondition) (phase : ℝ),
      (CameraPresets.adjust_for_phase (CameraPresets.PRESETS c) phase).iso ≤ 3200 ∧
      (2.8 : ℝ) ≤ (CameraPresets.adjust_for_phase (CameraPresets.PRESETS c) phase).f_stop) := by
  have hdim : ∀ (config : CameraConfig) (phase : ℝ), 0.3 + 0.7 * phase < 0.5 →
      CameraPresets.adjust_for_phase config phase =
        { iso := min 3200 (config.iso * 2), f_stop := max 2.8 (config.f_stop - 1),
          shutter := config.shutter, focal_length := config.focal_length } := by
    intro config phase h
    simp only [CameraPresets.adjust_for_phase]
    rw [if_pos h]
  have hbright : ∀ (config : CameraConfig) (phase : ℝ), ¬ (0.3 + 0.7 * phase < 0.5) →
      CameraPresets.adjust_for_phase config phase =
        { iso := config.iso, f_stop := config.f_stop,
          shutter := config.shutter, focal_length := config.focal_length } := by
    intro config phase h
    simp only [CameraPresets.adjust_for_phase]
    rw [if_neg h]
  refine ⟨fun config phase => ⟨hdim config phase, hbright config phase, ?_⟩, ?_⟩
  · intro hfoc h
    rw [hbright config phase h]
    obtain ⟨i, f, s, fl, fo⟩ := config
    have hfo : fo = "infinity" := hfoc
    subst hfo
    rfl
  · intro c phase
    rcases lt_or_ge (0.3 + 0.7 * phase) 0.5 with h | h
    · rw [hdim (CameraPresets.PRESETS c) phase h]
      exact ⟨min_le_left _ _, le_max_left _ _⟩
    · rw [hbright (CameraPresets.PRESETS c) phase (not_lt.mpr h)]
      cases c <;> constructor <;> norm_num [CameraPresets.PRESETS]

/-- Witness for C2: both branches of `adjust_for_phase_spec` exercised at
concrete inputs — the DeepSky preset at phase 0 (dim branch: ISO doubles to
the 3200 cap, f_stop floors at 2.8) and the Clear preset at phase 1 (bright
branch: the preset is returned unchanged). -/
theorem adjust_for_phase_spec_witness :
    (0.3 + 0.7 * (0 : ℝ) < 0.5) ∧
    ¬ (0.3 + 0.7 * (1 : ℝ) < 0.5) ∧
    CameraPresets.adjust_for_phase (CameraPresets.PRESETS SkyCondition.DEEP_SKY) 0 =
      { iso := 3200, f_stop := 2.8, shutter := 30, focal_length := 50 } ∧
    CameraPresets.adjust_for_phase (CameraPresets.PRESETS SkyCondition.CLEAR) 1 =
      CameraPresets.PRESETS SkyCondition.CLEAR := by
  refine ⟨by norm_num, by norm_num, ?_, ?_⟩
  · rw [(adjust_for_phase_spec.1 (CameraPresets.PRESETS SkyCondition.DEEP_SKY) 0).1 (by norm_num)]
    simp only [CameraPresets.PRESETS, CameraConfig.mk.injEq]
    norm_num [min_def, max_def]
  · exact (adjust_for_phase_spec.1 (CameraPresets.PRESETS SkyCondition.CLEAR) 1).2.2 rfl
      (by norm_num)

-- ===================== CLAIM C1 =====================

theorem create_shooting_plan_timestamp (lat lon t : ℝ) :
    (AstroSession.create_shooting_plan lat lon t).timestamp = t := rfl

theorem oneMinute_pos : (0 : ℝ) < oneMinute := by
  rw [oneMinute]
  norm_num

/-- C1: for positive duration and interval, generate_sequence returns plans
at timestamps start, start + interval, start + 2·interval, … strictly below
start + duration, so its length is ⌈duration/interval⌉, its timestamps are
strictly ascending and pairwise distinct, and generate_sequence(120, 15)
yields exactly 8 plans at offsets 0, 15, …, 105 minutes. -/
theorem generate_sequence_spec (lat lon start_time : ℝ)
    (duration_minutes interval_minutes : ℕ)
    (hd : 0 < duration_minutes) (hi : 0 < interval_minutes) :
    (AstroSession.generate_sequence lat lon start_time
        duration_minutes interval_minutes).length =
      ⌈(duration_minutes : ℚ) / (interval_minutes : ℚ)⌉₊ ∧
    List.map ShootingPlan.timestamp
        (AstroSession.generate_sequence lat lon start_time
          duration_minutes interval_minutes) =
      (pyRange duration_minutes interval_minutes).map
        (fun i : ℕ => start_time + (i : ℝ) * oneMinute) ∧
    (List.map ShootingPlan.timestamp
        (AstroSession.generate_sequence lat lon start_time
          duration_minutes interval_minutes)).Pairwise (· < ·) ∧
    (List.map ShootingPlan.timestamp
        (AstroSession.generate_sequence lat lon start_time
          duration_minutes interval_minutes)).Pairwise (· ≠ ·) ∧
    (∀ p ∈ AstroSession.generate_sequence lat lon start_time
        duration_minutes interval_minutes,
      start_time ≤ p.timestamp ∧
        p.timestamp < start_time + (duration_minutes : ℝ) * oneMinute) ∧
    (AstroSession.generate_sequence lat lon start_time 120 15).length = 8 ∧
    List.map ShootingPlan.timestamp
        (AstroSession.generate_sequence lat lon start_time 120 15) =
      List.map (fun i : ℕ => start_time + (i : ℝ) * oneMinute)
        [0, 15, 30, 45, 60, 75, 90, 105] := by
  have hmap : ∀ dur int : ℕ,
      List.map ShootingPlan.timestamp
          (AstroSession.generate_sequence lat lon start_time dur int) =
        (pyRange dur int).map (fun i : ℕ => start_time + (i : ℝ) * oneMinute) := by
    intro dur int
    rw [AstroSession.generate_sequence, List.map_map]
    rfl
  have hpw : (List.map ShootingPlan.timestamp
      (AstroSession.generate_sequence lat lon start_time
        duration_minutes interval_minutes)).Pairwise (· < ·) := by
    rw [hmap]
    refine List.pairwise_map.mpr ((pairwise_pyRange duration_minutes hi).imp ?_)
    intro a b hab
    have hcast : (a : ℝ) < (b : ℝ) := by exact_mod_cast hab
    have := mul_lt_mul_of_pos_right hcast oneMinute_pos
    linarith
  refine ⟨?_, hmap duration_minutes interval_minutes, hpw, hpw.imp ne_of_lt, ?_, ?_, ?_⟩
  · rw [AstroSession.generate_sequence, List.length_map, length_pyRange,
        ceil_div_eq duration_minutes interval_minutes hd hi]
  · intro p hp
    rw [AstroSession.generate_sequence] at hp
    obtain ⟨i, hi', rfl⟩ := List.mem_map.mp hp
    rw [create_shooting_plan_timestamp]
    have hlt : i < duration_minutes := mem_pyRange_lt hd hi hi'
    have hcast : (i : ℝ) < (duration_minutes : ℝ) := by exact_mod_cast hlt
    have h1 : (0 : ℝ) ≤ (i : ℝ) * oneMinute :=
      mul_nonneg (Nat.cast_nonneg i) oneMinute_pos.le
    have h2 := mul_lt_mul_of_pos_right hcast oneMinute_pos
    constructor <;> linarith
  · rw [AstroSession.generate_sequence, List.length_map, length_pyRange]
  · rw [hmap 120 15, show pyRange 120 15 = [0, 15, 30, 45, 60, 75, 90, 105] from by decide]

/-- Witness for C1: the hypotheses of `generate_sequence_spec` discharged at
duration 120 and interval 15, where the sequence has exactly
⌈120/15⌉ = 8 plans. -/
theorem generate_sequence_spec_witness :
    (0 < 120 ∧ 0 < 15) ∧
    (AstroSession.generate_sequence 0 0 0 120 15).length = ⌈(120 : ℚ) / (15 : ℚ)⌉₊ ∧
    (AstroSession.generate_sequence 0 0 0 120 15).length = 8 :=
  ⟨⟨by norm_num, by norm_num⟩,
   (generate_sequence_spec 0 0 0 120 15 (by norm_num) (by norm_num)).1,
   (generate_sequence_spec 0 0 0 120 15 (by norm_num) (by norm_num)).2.2.2.2.2.1⟩
